import Mathlib

/-!
Verification of the chat/search frontend of the rag-backend-for-chatbot
repository: a shallow embedding of `src/services/api.ts`, the
`ChatInterface` component and the `SearchInterface` component, together
with spec-modelled fragments of the backend retrieval pipeline (fusion,
session handling) that is not part of these sources.

Scores (`Citation.score`, weights) are modelled as rationals; strings as
Lean strings (one `Char` per JS character).
-/

/-- Interface `Citation` from src/services/api.ts (lines 91-98): one retrieved chunk
attached to a chat answer. -/
structure Citation where
  doc_id : String
  chunk_id : String
  page_from : Option Nat
  page_to : Option Nat
  score : ℚ
  text : String
deriving DecidableEq, Repr

/-- Interface `ChatResponse` from src/services/api.ts (lines 105-110): the record a
successful `/api/chat` call resolves to. -/
structure ChatResponse where
  answer : String
  citations : List Citation
  conversation_id : String
  latency_ms : ℚ
deriving DecidableEq, Repr

/-- Interface `ChatRequest` from src/services/api.ts (lines 100-103): the body sent
to `/api/chat`. -/
structure ChatRequest where
  conversation_id : String
  message : String
deriving DecidableEq, Repr

/-- The comparator of `[...data.citations].sort((a, b) => b.score - a.score)`
in ChatInterface's `onSuccess`: `a` may stay before `b` iff the comparator is
`≤ 0` there, i.e. iff `b.score ≤ a.score`. -/
def citationLe (a b : Citation) : Bool := decide (b.score ≤ a.score)

/-- ChatInterface `onSuccess` (lines 217-221): the citations panel content,
the response's citations stably sorted by score descending (JS `Array.sort`
is stable per ES2019). -/
def sortCitationsByScoreDesc (l : List Citation) : List Citation :=
  l.mergeSort citationLe

theorem citationLe_trans (a b c : Citation) :
    citationLe a b → citationLe b c → citationLe a c := by
  simp only [citationLe, decide_eq_true_eq]
  exact fun h h' => le_trans h' h

theorem citationLe_total (a b : Citation) : citationLe a b || citationLe b a := by
  simp only [citationLe, Bool.or_eq_true, decide_eq_true_eq]
  exact le_total b.score a.score

/-- C1: the citations rendered after a successful chat response are exactly
the response's citations reordered into non-increasing score order; equal
scores keep their incoming relative order (stable sort, permutation). -/
theorem citationsPanel_stable_sort_desc (l : List Citation) :
    List.Perm (sortCitationsByScoreDesc l) l ∧
    (sortCitationsByScoreDesc l).Pairwise (fun a b => b.score ≤ a.score) ∧
    ∀ a b : Citation, a.score = b.score → List.Sublist [a, b] l →
      List.Sublist [a, b] (sortCitationsByScoreDesc l) := by
  refine ⟨List.mergeSort_perm l _, ?_, ?_⟩
  · have h := List.sorted_mergeSort citationLe_trans citationLe_total l
    exact h.imp (fun hab => by simpa [citationLe] using hab)
  · intro a b hscore hsub
    exact List.pair_sublist_mergeSort citationLe_trans citationLe_total
      (by simp [citationLe, hscore]) hsub

/-- Witness for C1 at a concrete input: two equal-score citations keep
their incoming order in the sorted panel. -/
theorem citationsPanel_stable_sort_desc_witness :
    List.Sublist [(⟨"d2", "c2", none, none, 1/2, "t2"⟩ : Citation),
        ⟨"d3", "c3", none, none, 1/2, "t3"⟩]
      (sortCitationsByScoreDesc
        [⟨"d1", "c1", none, none, 9/10, "t1"⟩,
         ⟨"d2", "c2", none, none, 1/2, "t2"⟩,
         ⟨"d3", "c3", none, none, 1/2, "t3"⟩]) :=
  (citationsPanel_stable_sort_desc _).2.2 _ _ rfl (List.sublist_cons_self _ _)

/-- JS whitespace (ECMA-262 `TrimString`): TAB..CR, SP, NBSP, Ogham space,
the Unicode space separators, LS, PS, NNBSP, MMSP, ideographic space, BOM. -/
def isJsWhitespace (c : Char) : Bool :=
  (0x09 ≤ c.toNat && c.toNat ≤ 0x0D) || c.toNat == 0x20 || c.toNat == 0xA0 ||
  c.toNat == 0x1680 || (0x2000 ≤ c.toNat && c.toNat ≤ 0x200A) ||
  c.toNat == 0x2028 || c.toNat == 0x2029 || c.toNat == 0x202F ||
  c.toNat == 0x205F || c.toNat == 0x3000 || c.toNat == 0xFEFF

/-- JS `String.prototype.trim`: strip whitespace from both ends. -/
def jsTrim (s : String) : String :=
  ⟨((s.data.dropWhile isJsWhitespace).reverse.dropWhile isJsWhitespace).reverse⟩

theorem jsTrim_length_le (s : String) : (jsTrim s).length ≤ s.length := by
  have h1 : List.Sublist (s.data.dropWhile isJsWhitespace) s.data :=
    List.dropWhile_sublist _
  have h2 : List.Sublist
      ((s.data.dropWhile isJsWhitespace).reverse.dropWhile isJsWhitespace)
      (s.data.dropWhile isJsWhitespace).reverse :=
    List.dropWhile_sublist _
  have h3 := le_trans h2.length_le (by simpa using h1.length_le)
  show (((s.data.dropWhile isJsWhitespace).reverse.dropWhile
    isJsWhitespace).reverse).length ≤ s.data.length
  simpa using h3

theorem jsTrim_ne_empty_length (s : String) (h : jsTrim s ≠ "") :
    1 ≤ (jsTrim s).length := by
  rcases hq : (jsTrim s).data with _ | ⟨c, cs⟩
  · exact absurd (by cases hj : jsTrim s; simp_all) h
  · simp [String.length, hq]

/-- The `role` of a transcript `Message` in ChatInterface
(src/unnamed/part_010 lines 178-181). -/
inductive Role where
  | user
  | assistant
deriving DecidableEq, Repr

/-- A transcript `Message` in ChatInterface. -/
structure Message where
  role : Role
  content : String
deriving DecidableEq, Repr

/-- The React state of ChatInterface (lines 188-191), plus `pending`:
`some m` models `chatMutation.isPending` with in-flight request message `m`. -/
structure ChatState where
  messages : List Message
  input : String
  citations : List Citation
  error : Option String
  pending : Option String
deriving DecidableEq, Repr

/-- Initial ChatInterface state: empty transcript, empty input, no
citations, no error, no in-flight request. -/
def initialChatState : ChatState :=
  ⟨[], "", [], none, none⟩

/-- The message `onError` displays (lines 228-229):
`error?.message || "Failed to send message. Please try again."` — the JS `||`
falls back when the message is absent or the empty string. -/
def chatFallbackErrorMessage : String := "Failed to send message. Please try again."

def onErrorDisplayedMessage (m : Option String) : String :=
  match m with
  | some s => if s = "" then chatFallbackErrorMessage else s
  | none => chatFallbackErrorMessage

/-- Handler `chatMutation.onSuccess` (lines 209-225): append the user message
(current input, trimmed) then the assistant answer, replace the citations
with the response's citations sorted by score descending, clear input and
error; the mutation is no longer pending. -/
def chatMutationOnSuccess (s : ChatState) (data : ChatResponse) : ChatState :=
  { s with
    messages := s.messages ++ [⟨Role.user, jsTrim s.input⟩, ⟨Role.assistant, data.answer⟩]
    citations := sortCitationsByScoreDesc data.citations
    input := ""
    error := none
    pending := none }

/-- Handler `chatMutation.onError` (lines 226-233): record the displayed error
message and still append the user message; citations and input untouched. -/
def chatMutationOnError (s : ChatState) (errMsg : Option String) : ChatState :=
  { s with
    messages := s.messages ++ [⟨Role.user, jsTrim s.input⟩]
    error := some (onErrorDisplayedMessage errMsg)
    pending := none }

/-- The textarea's `maxLength={1000}` (line 341): the browser caps the
entered value at 1000 characters. -/
def capInput (v : String) : String :=
  ⟨v.data.take 1000⟩

/-- UI events driving ChatInterface:
`setInput` is the textarea `onChange` (disabled while pending, line 342),
`submit` is `handleSubmit` (lines 236-242), `success`/`failure` are the
mutation callbacks settling the in-flight request. -/
inductive ChatEvent where
  | setInput (v : String)
  | submit
  | success (data : ChatResponse)
  | failure (errMsg : Option String)

/-- One UI step; the second component is the `ChatRequest` issued to
`/api/chat`, if any (`chatMutation.mutate(trimmedInput)` posting
`{conversation_id, message}`, api.ts lines 172-178). -/
def chatStep (cid : String) (s : ChatState) : ChatEvent → ChatState × Option ChatRequest
  | ChatEvent.setInput v =>
    if s.pending.isSome then (s, none)
    else ({ s with input := capInput v }, none)
  | ChatEvent.submit =>
    if jsTrim s.input ≠ "" ∧ s.pending = none then
      ({ s with pending := some (jsTrim s.input) }, some ⟨cid, jsTrim s.input⟩)
    else (s, none)
  | ChatEvent.success data =>
    if s.pending.isSome then (chatMutationOnSuccess s data, none) else (s, none)
  | ChatEvent.failure m =>
    if s.pending.isSome then (chatMutationOnError s m, none) else (s, none)

/-- Run a list of UI events from a state, collecting the issued requests. -/
def chatRunAux (cid : String) : ChatState → List ChatEvent → ChatState × List ChatRequest
  | s, [] => (s, [])
  | s, e :: evs =>
    let r := chatStep cid s e
    let rest := chatRunAux cid r.1 evs
    (rest.1, r.2.toList ++ rest.2)

/-- The ChatInterface state after a list of UI events. -/
def chatRun (cid : String) (evs : List ChatEvent) : ChatState :=
  (chatRunAux cid initialChatState evs).1

/-- All chat requests issued during a list of UI events. -/
def chatRequests (cid : String) (evs : List ChatEvent) : List ChatRequest :=
  (chatRunAux cid initialChatState evs).2

/-- C2: a successful turn appends exactly one user message followed by one
assistant message; a failed turn appends exactly one user message and no
assistant message; no other event grows the transcript. -/
theorem chat_turn_transcript_growth (cid : String) (s : ChatState)
    (data : ChatResponse) (em : Option String) (v : String) :
    (chatMutationOnSuccess s data).messages
      = s.messages ++ [⟨Role.user, jsTrim s.input⟩, ⟨Role.assistant, data.answer⟩] ∧
    (chatMutationOnSuccess s data).messages.countP (fun m => m.role == Role.user)
      = s.messages.countP (fun m => m.role == Role.user) + 1 ∧
    (chatMutationOnSuccess s data).messages.countP (fun m => m.role == Role.assistant)
      = s.messages.countP (fun m => m.role == Role.assistant) + 1 ∧
    (chatMutationOnError s em).messages = s.messages ++ [⟨Role.user, jsTrim s.input⟩] ∧
    (chatMutationOnError s em).messages.countP (fun m => m.role == Role.user)
      = s.messages.countP (fun m => m.role == Role.user) + 1 ∧
    (chatMutationOnError s em).messages.countP (fun m => m.role == Role.assistant)
      = s.messages.countP (fun m => m.role == Role.assistant) ∧
    (chatStep cid s (ChatEvent.setInput v)).1.messages = s.messages ∧
    (chatStep cid s ChatEvent.submit).1.messages = s.messages := by
  refine ⟨rfl, ?_, ?_, rfl, ?_, ?_, ?_, ?_⟩
  · simp [chatMutationOnSuccess, List.countP_append, List.countP_cons]
  · simp [chatMutationOnSuccess, List.countP_append, List.countP_cons]
  · simp [chatMutationOnError, List.countP_append, List.countP_cons]
  · simp [chatMutationOnError, List.countP_append, List.countP_cons]
  · simp only [chatStep]
    split <;> rfl
  · simp only [chatStep]
    split <;> rfl

/-- C9: a failed request leaves the citations panel unchanged; a successful
request replaces it with exactly the new response's citations (reordered),
independently of the previous panel content; no other event touches it. -/
theorem citations_panel_frame (cid : String) (s : ChatState)
    (data : ChatResponse) (em : Option String) (v : String) :
    (chatMutationOnError s em).citations = s.citations ∧
    (chatMutationOnSuccess s data).citations = sortCitationsByScoreDesc data.citations ∧
    List.Perm (chatMutationOnSuccess s data).citations data.citations ∧
    (chatStep cid s (ChatEvent.setInput v)).1.citations = s.citations ∧
    (chatStep cid s ChatEvent.submit).1.citations = s.citations := by
  refine ⟨rfl, rfl, List.mergeSort_perm data.citations _, ?_, ?_⟩
  · simp only [chatStep]
    split <;> rfl
  · simp only [chatStep]
    split <;> rfl

/-- ChatInterface citations-panel empty state (part_010 lines 411-416),
rendered when a turn succeeded but produced no citations. -/
def chatNoCitationsDisplay : List String := ["No citations available"]

/-- ChatInterface error display (part_010 lines 317-327): heading plus the
error message. -/
def chatErrorDisplay (m : String) : List String := ["Error", m]

/-- SearchInterface no-results state (part_008 lines 181-195). -/
def searchNoResultsDisplay : List String :=
  ["No Results Found",
   "Try different keywords or check if documents have been processed."]

/-- SearchInterface error state (part_008 lines 155-170): heading, message,
retry button label. -/
def searchErrorDisplay (m : String) : List String := ["Search Error", m, "Try Again"]

/-- C7: the "found nothing" rendering and the error rendering never show the
same message, for any error text, in both the chat and the search UI. -/
theorem empty_vs_error_distinct (m : String) :
    chatErrorDisplay m ≠ chatNoCitationsDisplay ∧
    searchErrorDisplay m ≠ searchNoResultsDisplay := by
  constructor
  · intro h
    simp [chatErrorDisplay, chatNoCitationsDisplay] at h
  · intro h
    simp [searchErrorDisplay, searchNoResultsDisplay] at h

/-- Reachable-state invariant of ChatInterface: the input never exceeds the
textarea's 1000-character cap, and while a request is in flight its message
is the trimmed current input (the textarea is disabled, so the input cannot
drift from what was sent). -/
def ChatInv (s : ChatState) : Prop :=
  s.input.length ≤ 1000 ∧ ∀ m, s.pending = some m → m = jsTrim s.input

theorem initialChatState_inv : ChatInv initialChatState := by
  constructor
  · simp [initialChatState, String.length]
  · intro m h
    simp [initialChatState] at h

theorem chatStep_preserves_inv (cid : String) (s : ChatState) (e : ChatEvent)
    (h : ChatInv s) : ChatInv (chatStep cid s e).1 := by
  obtain ⟨hlen, hpend⟩ := h
  cases e with
  | setInput v =>
    simp only [chatStep]
    split
    · exact ⟨hlen, hpend⟩
    · rename_i hp
      refine ⟨?_, ?_⟩
      · show (v.data.take 1000).length ≤ 1000
        simp [List.length_take]
      · intro m hm
        simp only [Option.isSome] at hp
        rcases hps : s.pending with _ | p
        · simp [hps] at hm
        · simp [hps] at hp
  | submit =>
    simp only [chatStep]
    split
    · refine ⟨hlen, ?_⟩
      intro m hm
      simp at hm
      simp [hm]
    · exact ⟨hlen, hpend⟩
  | success data =>
    simp only [chatStep]
    split
    · refine ⟨?_, ?_⟩
      · simp [chatMutationOnSuccess, String.length]
      · intro m hm
        simp [chatMutationOnSuccess] at hm
    · exact ⟨hlen, hpend⟩
  | failure em =>
    simp only [chatStep]
    split
    · refine ⟨hlen, ?_⟩
      intro m hm
      simp [chatMutationOnError] at hm
    · exact ⟨hlen, hpend⟩

theorem chatRunAux_inv (cid : String) (evs : List ChatEvent) :
    ∀ s : ChatState, ChatInv s → ChatInv (chatRunAux cid s evs).1 := by
  induction evs with
  | nil => intro s h; exact h
  | cons e evs ih =>
    intro s h
    exact ih _ (chatStep_preserves_inv cid s e h)

theorem chatRun_inv (cid : String) (evs : List ChatEvent) : ChatInv (chatRun cid evs) :=
  chatRunAux_inv cid evs initialChatState initialChatState_inv

theorem chatRunAux_requests_bounds (cid : String) (evs : List ChatEvent) :
    ∀ s : ChatState, ChatInv s → ∀ r : ChatRequest,
      r ∈ (chatRunAux cid s evs).2 → 1 ≤ r.message.length ∧ r.message.length ≤ 1000 := by
  induction evs with
  | nil =>
    intro s _ r hr
    simp [chatRunAux] at hr
  | cons e evs ih =>
    intro s hs r hr
    simp only [chatRunAux, List.mem_append] at hr
    rcases hr with hr | hr
    · cases e with
      | setInput v => simp [chatStep] at hr; split at hr <;> simp at hr
      | submit =>
        simp only [chatStep] at hr
        split at hr
        · rename_i hc
          simp at hr
          subst hr
          exact ⟨jsTrim_ne_empty_length s.input hc.1,
            le_trans (jsTrim_length_le s.input) hs.1⟩
        · simp at hr
      | success data => simp [chatStep] at hr; split at hr <;> simp at hr
      | failure em => simp [chatStep] at hr; split at hr <;> simp at hr
    · exact ih _ (chatStep_preserves_inv cid s e hs) r hr

/-- C3: every chat request issued carries a message of 1 to 1000 characters;
submitting a whitespace-only (or empty) input issues no request and changes
nothing. -/
theorem chat_request_length_bounds (cid : String) (evs : List ChatEvent) :
    (∀ r : ChatRequest, r ∈ chatRequests cid evs →
      1 ≤ r.message.length ∧ r.message.length ≤ 1000) ∧
    (∀ s : ChatState, jsTrim s.input = "" →
      chatStep cid s ChatEvent.submit = (s, none)) := by
  constructor
  · exact chatRunAux_requests_bounds cid evs initialChatState initialChatState_inv
  · intro s h
    simp [chatStep, h]

/-- Witness for C3: in a run that types "hi" and submits, the one issued
request is 2 characters long; submitting the initial empty input is a no-op. -/
theorem chat_request_length_bounds_witness :
    (1 ≤ (ChatRequest.mk "c" "hi").message.length ∧
      (ChatRequest.mk "c" "hi").message.length ≤ 1000) ∧
    chatStep "c" initialChatState ChatEvent.submit = (initialChatState, none) :=
  ⟨(chat_request_length_bounds "c" [ChatEvent.setInput "hi", ChatEvent.submit]).1
      (ChatRequest.mk "c" "hi") (by decide),
   (chat_request_length_bounds "c" []).2 initialChatState (by decide)⟩

/-- C10: when a response settles a pending request whose message is `m`, the
user message appended to the transcript is exactly `m` (the input was
trimmed once at submission and cannot change while disabled), and input
changes while pending are ignored. -/
theorem appended_user_message_eq_sent (cid : String) (evs : List ChatEvent)
    (m : String) (data : ChatResponse) (v : String)
    (h : (chatRun cid evs).pending = some m) :
    (chatStep cid (chatRun cid evs) (ChatEvent.success data)).1.messages
      = (chatRun cid evs).messages
        ++ [⟨Role.user, m⟩, ⟨Role.assistant, data.answer⟩] ∧
    (chatStep cid (chatRun cid evs) (ChatEvent.setInput v)).1 = chatRun cid evs := by
  have hinv := chatRun_inv cid evs
  have hm : m = jsTrim (chatRun cid evs).input := hinv.2 m h
  constructor
  · simp [chatStep, h, chatMutationOnSuccess, hm]
  · simp [chatStep, h]

/-- Witness for C10: typing "hi" then submitting leaves request "hi"
pending; the success handler appends the user message "hi". -/
theorem appended_user_message_eq_sent_witness :
    (chatStep "c" (chatRun "c" [ChatEvent.setInput "hi", ChatEvent.submit])
        (ChatEvent.success ⟨"ans", [], "c", 5⟩)).1.messages
      = (chatRun "c" [ChatEvent.setInput "hi", ChatEvent.submit]).messages
        ++ [⟨Role.user, "hi"⟩, ⟨Role.assistant, "ans"⟩] ∧
    (chatStep "c" (chatRun "c" [ChatEvent.setInput "hi", ChatEvent.submit])
        (ChatEvent.setInput "changed")).1
      = chatRun "c" [ChatEvent.setInput "hi", ChatEvent.submit] :=
  appended_user_message_eq_sent "c" [ChatEvent.setInput "hi", ChatEvent.submit]
    "hi" ⟨"ans", [], "c", 5⟩ "changed" (by decide)

/-- The `error` object of a `ChatError` response body
(src/services/api.ts lines 112-119). -/
structure ChatErrorBody where
  code : String
  message : String
  details : List (String × String)
  requestId : String
deriving DecidableEq, Repr

/-- A failed axios call as observed in `sendChatMessage`'s catch block:
`message` is the JS error's own `.message` (`none` when absent), `body` is
`error.response.data.error` when the response carried a structured
`ChatError`. -/
structure AxiosFailure where
  message : Option String
  body : Option ChatErrorBody
deriving DecidableEq, Repr

/-- What `sendChatMessage` throws on failure (api.ts lines 180-193): a new
`Error` built from the structured body, or the original failure rethrown
unchanged. -/
inductive ThrownChatError where
  | structured (b : ChatErrorBody)
  | original (e : AxiosFailure)
deriving DecidableEq, Repr

/-- The catch block of `apiService.sendChatMessage` (api.ts lines 180-193). -/
def sendChatMessageCatch (e : AxiosFailure) : ThrownChatError :=
  match e.body with
  | some b => ThrownChatError.structured b
  | none => ThrownChatError.original e

/-- The `.message` a caller reads off the thrown value
(`new Error(msg).message = msg`). -/
def thrownMessage : ThrownChatError → Option String
  | ThrownChatError.structured b => some b.message
  | ThrownChatError.original e => e.message

/-- The `.code` attached to the thrown value (absent on a rethrow). -/
def thrownCode : ThrownChatError → Option String
  | ThrownChatError.structured b => some b.code
  | ThrownChatError.original _ => none

/-- The `.details` attached to the thrown value. -/
def thrownDetails : ThrownChatError → Option (List (String × String))
  | ThrownChatError.structured b => some b.details
  | ThrownChatError.original _ => none

/-- The `.requestId` attached to the thrown value. -/
def thrownRequestId : ThrownChatError → Option String
  | ThrownChatError.structured b => some b.requestId
  | ThrownChatError.original _ => none

/-- Counterexample to C4 as stated: with a structured body whose message is
the empty string, `sendChatMessage` does throw that message, but the UI
shows the generic fallback, not "exactly that message". -/
theorem sendChatMessage_error_counterexample :
    thrownMessage (sendChatMessageCatch
        ⟨some "Request failed with status code 500",
         some ⟨"CHAT_ERROR", "", [], "req-1"⟩⟩)
      = some "" ∧
    onErrorDisplayedMessage (thrownMessage (sendChatMessageCatch
        ⟨some "Request failed with status code 500",
         some ⟨"CHAT_ERROR", "", [], "req-1"⟩⟩))
      = chatFallbackErrorMessage ∧
    chatFallbackErrorMessage ≠ "" := by
  refine ⟨rfl, rfl, by decide⟩

/-- C4 (amended): a failure with a structured body is thrown as an error
carrying exactly the body's message, code, details and requestId; a failure
without one is rethrown unchanged; the UI surfaces exactly the thrown
message whenever it is non-empty (an empty or missing message is replaced
by the generic fallback text). -/
theorem sendChatMessage_error_mapping (e : AxiosFailure) :
    (∀ b : ChatErrorBody, e.body = some b →
      sendChatMessageCatch e = ThrownChatError.structured b ∧
      thrownMessage (sendChatMessageCatch e) = some b.message ∧
      thrownCode (sendChatMessageCatch e) = some b.code ∧
      thrownDetails (sendChatMessageCatch e) = some b.details ∧
      thrownRequestId (sendChatMessageCatch e) = some b.requestId) ∧
    (e.body = none → sendChatMessageCatch e = ThrownChatError.original e) ∧
    (∀ m : String, m ≠ "" → onErrorDisplayedMessage (some m) = m) := by
  refine ⟨?_, ?_, ?_⟩
  · intro b hb
    simp [sendChatMessageCatch, hb, thrownMessage, thrownCode, thrownDetails,
      thrownRequestId]
  · intro hb
    simp [sendChatMessageCatch, hb]
  · intro m hm
    simp [onErrorDisplayedMessage, hm]

/-- Witness for C4 at concrete failures: a structured body is mapped to its
message and code, a bodyless network error is rethrown unchanged, and a
non-empty message is displayed verbatim. -/
theorem sendChatMessage_error_mapping_witness :
    (sendChatMessageCatch ⟨some "Request failed", some ⟨"CHAT_ERROR", "boom", [], "r1"⟩⟩
        = ThrownChatError.structured ⟨"CHAT_ERROR", "boom", [], "r1"⟩ ∧
      thrownMessage (sendChatMessageCatch
          ⟨some "Request failed", some ⟨"CHAT_ERROR", "boom", [], "r1"⟩⟩)
        = some "boom" ∧
      thrownCode (sendChatMessageCatch
          ⟨some "Request failed", some ⟨"CHAT_ERROR", "boom", [], "r1"⟩⟩)
        = some "CHAT_ERROR" ∧
      thrownDetails (sendChatMessageCatch
          ⟨some "Request failed", some ⟨"CHAT_ERROR", "boom", [], "r1"⟩⟩)
        = some [] ∧
      thrownRequestId (sendChatMessageCatch
          ⟨some "Request failed", some ⟨"CHAT_ERROR", "boom", [], "r1"⟩⟩)
        = some "r1") ∧
    sendChatMessageCatch ⟨some "Network Error", none⟩
      = ThrownChatError.original ⟨some "Network Error", none⟩ ∧
    onErrorDisplayedMessage (some "boom") = "boom" :=
  ⟨(sendChatMessage_error_mapping
      ⟨some "Request failed", some ⟨"CHAT_ERROR", "boom", [], "r1"⟩⟩).1
      ⟨"CHAT_ERROR", "boom", [], "r1"⟩ rfl,
   (sendChatMessage_error_mapping ⟨some "Network Error", none⟩).2.1 rfl,
   (sendChatMessage_error_mapping ⟨none, none⟩).2.2 "boom" (by decide)⟩

/-- The fields (name, TS type) of the `ChatResponse` interface
(src/services/api.ts lines 105-110), in declaration order. -/
def chatResponseFields : List (String × String) :=
  [("answer", "string"), ("citations", "Citation[]"),
   ("conversation_id", "string"), ("latency_ms", "number")]

/-- The field list the spec's chat contract describes:
`{answer, citations, session_id, latency_ms}`. -/
def specChatFields : List (String × String) :=
  [("answer", "string"), ("citations", "Citation[]"),
   ("session_id", "string"), ("latency_ms", "number")]

/-- Counterexample to C6 as stated: the chat response record has no
`session_id` field — the session-echo field is named `conversation_id`. -/
theorem chatResponse_fields_counterexample :
    chatResponseFields ≠ specChatFields ∧
    "session_id" ∉ chatResponseFields.map Prod.fst := by
  refine ⟨by decide, by decide⟩

/-- C6 (amended): a successful chat call resolves to a record with exactly
the fields `answer` (string), `citations` (list of citations),
`conversation_id` (string echoing the conversation id) and `latency_ms`
(number), and nothing else. -/
theorem chatResponse_fields :
    chatResponseFields.map Prod.fst
      = ["answer", "citations", "conversation_id", "latency_ms"] ∧
    chatResponseFields = [("answer", "string"), ("citations", "Citation[]"),
      ("conversation_id", "string"), ("latency_ms", "number")] ∧
    ∀ r : ChatResponse,
      r = ⟨r.answer, r.citations, r.conversation_id, r.latency_ms⟩ := by
  refine ⟨rfl, rfl, ?_⟩
  intro r
  cases r
  rfl

/-- Modelled from the spec: `SearchCandidate` (spec §3) as consumed by the
FusionEngine — the backend fusion code is not among these frontend sources. -/
structure SearchCandidate where
  chunk_id : Nat
  score : ℚ
deriving DecidableEq, Repr

/-- Modelled from the spec: the score a candidate list assigns to a chunk
id, with "default 0" for a chunk absent from that list. -/
def sourceScore (l : List SearchCandidate) (id : Nat) : ℚ :=
  match l.find? (fun c => c.chunk_id == id) with
  | some c => c.score
  | none => 0

/-- Modelled from the spec (§4.4): the FusionEngine score assignment — for
each chunk id appearing in either input list,
`fused_score = w_sem * semantic_score(id, default 0) + w_lex *
lexical_score(id, default 0)`; a single-source chunk is kept, not excluded. -/
def fuse (lexical semantic : List SearchCandidate) (wSem wLex : ℚ) :
    List (Nat × ℚ) :=
  (((semantic.map SearchCandidate.chunk_id)
      ++ (lexical.map SearchCandidate.chunk_id)).dedup).map
    (fun id => (id, wSem * sourceScore semantic id + wLex * sourceScore lexical id))

/-- C8: every chunk id appearing in either list gets the weighted fused
score (0 for the missing side) and is never excluded; conversely, a chunk
id is fused only if it appears in one of the lists, every fused entry
carries exactly the weighted-formula score, and fusion invents no other
entries; in the spec's example a semantic-only chunk scoring 0.9 under
weight 0.6 (fused 0.54) outranks a lexical-only chunk scoring 0.5 under
weight 0.4 (fused 0.20). -/
theorem fuse_weighted_scores (lexical semantic : List SearchCandidate)
    (wSem wLex : ℚ) (id : Nat)
    (h : id ∈ semantic.map SearchCandidate.chunk_id ∨
         id ∈ lexical.map SearchCandidate.chunk_id) :
    (id, wSem * sourceScore semantic id + wLex * sourceScore lexical id)
      ∈ fuse lexical semantic wSem wLex ∧
    (∀ p : Nat × ℚ, p ∈ fuse lexical semantic wSem wLex →
      (p.1 ∈ semantic.map SearchCandidate.chunk_id ∨
        p.1 ∈ lexical.map SearchCandidate.chunk_id) ∧
      p.2 = wSem * sourceScore semantic p.1 + wLex * sourceScore lexical p.1) ∧
    fuse [⟨2, 5/10⟩] [⟨1, 9/10⟩] (6/10) (4/10) = [(1, 27/50), (2, 1/5)] ∧
    (27/50 : ℚ) > 1/5 := by
  refine ⟨?_, ?_, ?_, by norm_num⟩
  · apply List.mem_map_of_mem
    rw [List.mem_dedup, List.mem_append]
    exact h
  · intro p hp
    rw [fuse, List.mem_map] at hp
    obtain ⟨i, hi, rfl⟩ := hp
    rw [List.mem_dedup, List.mem_append] at hi
    exact ⟨hi, rfl⟩
  · have h1 : sourceScore [⟨1, 9/10⟩] 1 = 9/10 := rfl
    have h2 : sourceScore [⟨2, 5/10⟩] 1 = 0 := rfl
    have h3 : sourceScore [⟨1, 9/10⟩] 2 = 0 := rfl
    have h4 : sourceScore [⟨2, 5/10⟩] 2 = 5/10 := rfl
    have h5 : fuse [⟨2, 5/10⟩] [⟨1, 9/10⟩] (6/10) (4/10)
        = [(1, (6/10 : ℚ) * (9/10) + (4/10) * 0),
           (2, (6/10 : ℚ) * 0 + (4/10) * (5/10))] := by
      simp [fuse, List.dedup, h1, h2, h3, h4]
    rw [h5]
    norm_num

/-- Witness for C8: the semantic-only chunk 1 is fused at 0.54 and kept,
and the fused entry for the lexical-only chunk 2 carries exactly the
weighted-formula score. -/
theorem fuse_weighted_scores_witness :
    (((1 : Nat), (6/10 : ℚ) * sourceScore [⟨1, 9/10⟩] 1
        + (4/10 : ℚ) * sourceScore [⟨2, 5/10⟩] 1)
      ∈ fuse [⟨2, 5/10⟩] [⟨1, 9/10⟩] (6/10) (4/10)) ∧
    (((2 : Nat) ∈ ([⟨1, 9/10⟩] : List SearchCandidate).map SearchCandidate.chunk_id ∨
        (2 : Nat) ∈ ([⟨2, 5/10⟩] : List SearchCandidate).map SearchCandidate.chunk_id) ∧
      (1/5 : ℚ) = (6/10 : ℚ) * sourceScore [⟨1, 9/10⟩] 2
        + (4/10 : ℚ) * sourceScore [⟨2, 5/10⟩] 2) := by
  have hth := fuse_weighted_scores [⟨2, 5/10⟩] [⟨1, 9/10⟩] (6/10) (4/10) 1
    (Or.inl (by decide))
  refine ⟨hth.1, ?_⟩
  have hmem : ((2 : Nat), (1/5 : ℚ)) ∈ fuse [⟨2, 5/10⟩] [⟨1, 9/10⟩] (6/10) (4/10) := by
    rw [hth.2.2.1]
    simp
  exact hth.2.1 (2, 1/5) hmem

/-- Modelled from the spec: the persisted chat sessions (`ChatSession` rows
with their ordered messages), keyed by numeric session id — the backend
persistence layer and ChatOrchestrator are not among these frontend
sources. -/
def SessionStore : Type := List (Nat × List Message)

/-- Modelled from the spec: a session id distinct from every stored one,
for the implicitly created fresh session. -/
def freshSessionId (store : SessionStore) : Nat :=
  (store.map Prod.fst).foldr max 0 + 1

/-- Modelled from the spec (§4.6): history window, default N = 10. -/
def historyWindow : Nat := 10

/-- Modelled from the spec (§4.6, §7): the ChatOrchestrator's input
validation and NEW → HISTORY_LOADED step. An empty or over-length message
is an `InputError` (`none`); otherwise, with no session id a fresh session
with empty history is created, and with a session id the last N stored
messages are loaded. Returns the session id, the loaded history and the
updated store. -/
def chatLoadSession (store : SessionStore) (sid : Option Nat) (message : String) :
    Option (Nat × List Message × SessionStore) :=
  if message.length = 0 ∨ message.length > 1000 then none
  else
    match sid with
    | none =>
      some (freshSessionId store, [], (freshSessionId store, []) :: store)
    | some i =>
      match store.find? (fun p => p.1 == i) with
      | some p => some (i, (p.2.reverse.take historyWindow).reverse, store)
      | none => some (i, [], store)

theorem le_foldr_max (l : List Nat) (x : Nat) (h : x ∈ l) : x ≤ l.foldr max 0 := by
  induction l with
  | nil => cases h
  | cons a l ih =>
    rcases List.mem_cons.mp h with rfl | h'
    · exact le_max_left _ _
    · exact le_trans (ih h') (le_max_right _ _)

theorem freshSessionId_not_mem (store : SessionStore) :
    freshSessionId store ∉ store.map Prod.fst := by
  intro h
  have h' := le_foldr_max (store.map Prod.fst) _ h
  rw [freshSessionId] at h'
  omega

/-- Counterexample to C5 as stated: invoking chat with no session id but an
empty message does not succeed — it is rejected as an input error. -/
theorem chat_absent_session_counterexample :
    chatLoadSession [] none "" = none := rfl

/-- C5 (amended): for every store and every message of valid length (1-1000
characters), invoking chat with no session id supplied succeeds and starts a
fresh session (a genuinely new id with empty history); the absence of a
session id itself never causes an error — a call without a session id
succeeds exactly when the same call with one does. -/
theorem chat_absent_session_starts_fresh (store : SessionStore) (message : String)
    (h1 : 1 ≤ message.length) (h2 : message.length ≤ 1000) :
    chatLoadSession store none message
      = some (freshSessionId store, [], (freshSessionId store, []) :: store) ∧
    freshSessionId store ∉ store.map Prod.fst ∧
    (∀ m : String, ∀ i : Nat,
      (chatLoadSession store none m).isSome
        = (chatLoadSession store (some i) m).isSome) := by
  have hcond : ¬(message.length = 0 ∨ message.length > 1000) := by omega
  refine ⟨by simp [chatLoadSession, hcond], freshSessionId_not_mem store, ?_⟩
  intro m i
  by_cases hc : m.length = 0 ∨ m.length > 1000
  · simp [chatLoadSession, hc]
  · simp only [chatLoadSession, if_neg hc]
    cases store.find? (fun p => p.1 == i) <;> rfl

/-- Witness for C5: on a store holding session 3, a chat call with no
session id and message "hello" creates fresh session 4 with empty history. -/
theorem chat_absent_session_starts_fresh_witness :
    chatLoadSession [(3, [])] none "hello"
      = some (freshSessionId [(3, [])], [], (freshSessionId [(3, [])], []) :: [(3, [])]) ∧
    freshSessionId [(3, [])] ∉ ([(3, [])] : SessionStore).map Prod.fst ∧
    (∀ m : String, ∀ i : Nat,
      (chatLoadSession [(3, [])] none m).isSome
        = (chatLoadSession [(3, [])] (some i) m).isSome) :=
  chat_absent_session_starts_fresh [(3, [])] "hello" (by decide) (by decide)
